import Mathlib

/-!
Verification development for the `DeploymentSuccess` React component of the
tokengen2 repository (src/src/components/DeploymentSuccess.tsx).

The component is pure view logic over a `DeploymentResult` prop plus four
pieces of local state (`copied`, `showMetadataForm`, `tokenMetadata`,
`isLoadingMetadata`).  Each event handler of the source is embedded as a
Lean function from the component state (plus the relevant environment
capabilities, passed explicitly) to the new state together with the list
of observable side effects it issues, in order.
-/

namespace TokenGen2

/-- Network descriptor carried inside a `DeploymentResult` (`result.network`),
with the fields the component reads: `name` and `symbol`. -/
structure Network where
  name : String
  symbol : String
deriving DecidableEq

/-- The `DeploymentResult` prop.  Its declaration lives in `src/types` which is
not part of the supplied sources; the fields and their optionality are taken
from the component's reads: `contractAddress`, `transactionHash`,
`network.name`, `network.symbol`, `gasUsed`, `deploymentCost`, `explorerUrl`,
`tokenName`, `tokenSymbol`, and the possibly-absent `symbol` and `decimals`
used with a JavaScript `||` default in `addTokenToMetaMask`. -/
structure DeploymentResult where
  contractAddress : String
  transactionHash : String
  network : Network
  gasUsed : String
  deploymentCost : String
  explorerUrl : String
  tokenName : String
  tokenSymbol : String
  symbol : Option String
  decimals : Option Nat
deriving DecidableEq

/-- The `TokenMetadata` record (declared in `src/types/tokenMetadata`, not
supplied); fields are those the component renders: `name`, `symbol`,
`logoUrl`, `description`, `tags`, `websiteUrl`, `twitterUrl`, `telegramUrl`. -/
structure TokenMetadata where
  name : Option String
  symbol : Option String
  logoUrl : Option String
  description : Option String
  tags : Option (List String)
  websiteUrl : Option String
  twitterUrl : Option String
  telegramUrl : Option String
deriving DecidableEq

/-- The component's local state: `copied` (React.useState<string | null>),
`showMetadataForm`, `tokenMetadata`, `isLoadingMetadata`. -/
structure CompState where
  copied : Option String
  showMetadataForm : Bool
  tokenMetadata : Option TokenMetadata
  isLoadingMetadata : Bool
deriving DecidableEq

/-- The initial state on mount: `useState(null)`, `useState(false)`,
`useState(null)`, `useState(false)`. -/
def initialState : CompState :=
  { copied := none
    showMetadataForm := false
    tokenMetadata := none
    isLoadingMetadata := false }

/-- The `options` object passed to the `wallet_watchAsset` provider request. -/
structure WatchAssetOptions where
  address : String
  symbol : String
  decimals : Nat
  image : String
deriving DecidableEq

/-- The argument of `window.ethereum.request`: `{method, params: {type, options}}`.
The `type` field is named `typ` because `type` is reserved in Lean. -/
structure WatchAssetRequest where
  method : String
  typ : String
  options : WatchAssetOptions
deriving DecidableEq

/-- Observable side effects the component's handlers issue, in program order. -/
inductive Effect where
  | clipboardWrite (text : String)
  | setTimeoutClearCopied (delayMs : Nat)
  | alert (msg : String)
  | providerRequest (req : WatchAssetRequest)
  | consoleError (msg : String)
  | nativeShareAttempt (title text url : String)
deriving DecidableEq

/-- JavaScript `a || b` where `a` is an optional string: `undefined` and the
empty string are falsy, so both fall through to the default. -/
def jsOrString : Option String → String → String
  | none, d => d
  | some s, d => if s = "" then d else s

/-- JavaScript `a || b` where `a` is an optional number: `undefined` and `0`
are falsy, so both fall through to the default. -/
def jsOrNat : Option Nat → Nat → Nat
  | none, d => d
  | some n, d => if n = 0 then d else n

/-- The request object built at lines 83-94 of the source:
`method: 'wallet_watchAsset'`, `type: 'ERC20'`,
`options: {address: result.contractAddress, symbol: result.symbol || 'TOKEN',
decimals: result.decimals || 18, image: ''}`. -/
def watchAssetRequest (result : DeploymentResult) : WatchAssetRequest :=
  { method := "wallet_watchAsset"
    typ := "ERC20"
    options :=
      { address := result.contractAddress
        symbol := jsOrString result.symbol "TOKEN"
        decimals := jsOrNat result.decimals 18
        image := "" } }

/-- `addTokenToMetaMask` (source lines 75-98).  `ethereumDefined` models
`typeof window.ethereum !== 'undefined'`; `requestSucceeds` models whether the
awaited provider request resolves or rejects (a rejection is caught and
logged).  The local state is returned unchanged in every branch, together
with the effects issued. -/
def addTokenToMetaMask (ethereumDefined requestSucceeds : Bool)
    (result : DeploymentResult) (s : CompState) : CompState × List Effect :=
  if ethereumDefined = false then
    (s, [.alert "MetaMask is not installed"])
  else if requestSucceeds then
    (s, [.providerRequest (watchAssetRequest result)])
  else
    (s, [.providerRequest (watchAssetRequest result),
         .consoleError "Error adding token to MetaMask:"])

/-- The provider requests among a list of effects, in order. -/
def requestsOf (effs : List Effect) : List WatchAssetRequest :=
  effs.filterMap fun e =>
    match e with
    | .providerRequest req => some req
    | _ => none

/-- `copyToClipboard` (source lines 42-46): write the text to the clipboard,
set `copied` to the field key, and schedule a 2000ms timeout that will reset
`copied` to null. -/
def copyToClipboard (text ty : String) (s : CompState) : CompState × List Effect :=
  ({ s with copied := some ty },
   [.clipboardWrite text, .setTimeoutClearCopied 2000])

/-- `shareContract` (source lines 48-66).  `navigatorShareDefined` models the
`if (navigator.share)` capability test; `shareSucceeds` models whether the
awaited `navigator.share` call resolves or rejects.  On rejection the error is
logged and `copyToClipboard(result.explorerUrl, 'share')` is the fallback; the
same fallback runs directly when the capability is absent. -/
def shareContract (navigatorShareDefined shareSucceeds : Bool)
    (result : DeploymentResult) (s : CompState) : CompState × List Effect :=
  if navigatorShareDefined then
    let attempt := Effect.nativeShareAttempt "Token Contract Deployed"
      ("Check out my new token contract: " ++ result.contractAddress)
      result.explorerUrl
    if shareSucceeds then
      (s, [attempt])
    else
      let fb := copyToClipboard result.explorerUrl "share" s
      (fb.1, attempt :: Effect.consoleError "Error sharing:" :: fb.2)
  else
    copyToClipboard result.explorerUrl "share" s

/-- `handleMetadataSave` (source lines 68-72): store the saved record and hide
the form. -/
def handleMetadataSave (metadata : TokenMetadata) (s : CompState) : CompState :=
  { s with tokenMetadata := some metadata, showMetadataForm := false }

/-- The `onClick` of the Hide Form / Edit Metadata / Add Metadata buttons
(source lines 193 and 296): `setShowMetadataForm b`. -/
def setShowMetadataForm (b : Bool) (s : CompState) : CompState :=
  { s with showMetadataForm := b }

/-- Outcome of the awaited `metadataService.getTokenMetadata` call: it either
resolves with an optional record or rejects. -/
inductive FetchOutcome where
  | success (metadata : Option TokenMetadata)
  | failure
deriving DecidableEq

/-- The sequence of states the component passes through while the mount effect
`checkMetadata` (source lines 20-40) runs.  The `if (result.contractAddress)`
guard is JavaScript string truthiness: the empty string is falsy, so nothing
at all runs then.  Otherwise `setIsLoadingMetadata(true)`; on success
`setTokenMetadata(metadata)` and, when the record is non-null,
`setShowMetadataForm(false)`; on rejection nothing but the log; and in both
cases `finally` runs `setIsLoadingMetadata(false)`. -/
def checkMetadataTrace (outcome : FetchOutcome) (result : DeploymentResult)
    (s : CompState) : List CompState :=
  if result.contractAddress = "" then []
  else
    let s1 := { s with isLoadingMetadata := true }
    match outcome with
    | .success m =>
      let s2 := { s1 with tokenMetadata := m }
      let s3 := if m.isSome then { s2 with showMetadataForm := false } else s2
      [s1, s2, s3, { s3 with isLoadingMetadata := false }]
    | .failure =>
      [s1, { s1 with isLoadingMetadata := false }]

/-- The effects issued by the mount effect: only the `console.error` log on a
rejected fetch (source line 32). -/
def checkMetadataEffects (outcome : FetchOutcome) (result : DeploymentResult) :
    List Effect :=
  if result.contractAddress = "" then []
  else
    match outcome with
    | .success _ => []
    | .failure => [.consoleError "Error fetching token metadata:"]

/-- The mount effect as a state transformer: its final state is the last state
of the trace (or the starting state when the guard skipped everything), and it
never throws — every branch of the source is caught. -/
def checkMetadata (outcome : FetchOutcome) (result : DeploymentResult)
    (s : CompState) : CompState × List Effect :=
  ((checkMetadataTrace outcome result s).getLastD s,
   checkMetadataEffects outcome result)

/-- What the Token Metadata panel shows (source lines 201-302): the spinner
while `isLoadingMetadata`, else the `TokenMetadataForm` while
`showMetadataForm`, else the read view when `tokenMetadata` is non-null, else
the empty-state call-to-action. -/
inductive MetadataView where
  | loadingSpinner
  | editForm
  | readView (metadata : TokenMetadata)
  | emptyCTA
deriving DecidableEq

/-- The branch of the metadata panel selected by a given state. -/
def renderMetadataPanel (s : CompState) : MetadataView :=
  if s.isLoadingMetadata then .loadingSpinner
  else if s.showMetadataForm then .editForm
  else
    match s.tokenMetadata with
    | some m => .readView m
    | none => .emptyCTA

/-- ECMAScript `String.prototype.slice(start, end)`: negative indices count
from the end, both are clamped to `[0, length]`, and the result is the
characters from the lower to the upper bound. -/
def jsSlice (s : String) (startIdx endIdx : Int) : String :=
  let len : Int := s.length
  let lower : Int := if startIdx < 0 then max (len + startIdx) 0 else min startIdx len
  let upper : Int := if endIdx < 0 then max (len + endIdx) 0 else min endIdx len
  let count : Int := max (upper - lower) 0
  String.mk ((s.data.drop lower.toNat).take count.toNat)

/-- The transaction hash as rendered (source line 150):
`result.transactionHash.slice(0, 20)` followed by `...`. -/
def displayedTransactionHash (result : DeploymentResult) : String :=
  jsSlice result.transactionHash 0 20 ++ "..."

/-- State of the copied-indicator together with the pending `setTimeout`
callbacks scheduled by `copyToClipboard`: the flag value and the absolute
times (in ms) at which a scheduled `setCopied(null)` will fire.  Each timer
resets the flag to null unconditionally — the source callback is
`() => setCopied(null)`, with no check of which copy scheduled it. -/
structure CopiedClock where
  copied : Option String
  timers : List Nat
deriving DecidableEq

/-- Fire every pending timer scheduled strictly before time `t`: each firing
runs `setCopied(null)`. -/
def fireTimersBefore (s : CopiedClock) (t : Nat) : CopiedClock :=
  if s.timers.any (fun x => x < t) then
    { copied := none, timers := s.timers.filter (fun x => t ≤ x) }
  else s

/-- Apply one copy action `(t, field)`: timers due before the click have
already fired; the click sets `copied` to the field key and schedules a
clearing timeout at `t + 2000`. -/
def applyCopy (s : CopiedClock) (c : Nat × String) : CopiedClock :=
  let s' := fireTimersBefore s c.1
  { copied := some c.2, timers := s'.timers ++ [c.1 + 2000] }

/-- The value of `copied` at time `q`, given the time-ordered list of copy
actions: run the copies that happened up to `q` (firing due timers in
between), then fire every timer due at or before `q`. -/
def copiedAt (copies : List (Nat × String)) (q : Nat) : Option String :=
  let s := (copies.filter (fun c => c.1 ≤ q)).foldl applyCopy ⟨none, []⟩
  if s.timers.any (fun x => x ≤ q) then none else s.copied

/-! Concrete fixtures used by witnesses and counterexamples. -/

/-- A sample network descriptor. -/
def sampleNetwork : Network := ⟨"Ethereum", "ETH"⟩

/-- A sample deployment result with every field specified and nonzero. -/
def sampleResult : DeploymentResult :=
  { contractAddress := "0xAAA"
    transactionHash := "0x123456789012345678901234567890"
    network := sampleNetwork
    gasUsed := "21000"
    deploymentCost := "0.01"
    explorerUrl := "https://explorer.io/tx/1"
    tokenName := "MyToken"
    tokenSymbol := "MTK"
    symbol := some "MTK"
    decimals := some 9 }

/-- A sample metadata record. -/
def sampleMetadata : TokenMetadata :=
  ⟨some "My Token", some "MTK", none, none, none, none, none, none⟩

/-- A deployment result whose decimals value is specified and equal to 0 —
legitimate for an ERC-20 token, but falsy in JavaScript. -/
def resultZeroDecimals : DeploymentResult :=
  { sampleResult with symbol := some "ZRO", decimals := some 0 }

/-! Helper lemmas. -/

/-- `jsSlice s 0 20` is the 20-character prefix whenever `s` is longer than
20 characters. -/
theorem jsSlice_zero_twenty (s : String) (h : 20 < s.length) :
    jsSlice s 0 20 = s.take 20 := by
  unfold jsSlice
  rw [String.take_eq]
  have h0 : ¬ ((0 : Int) < 0) := by omega
  have h20 : ¬ ((20 : Int) < 0) := by omega
  have hle : (20 : Int) ≤ (s.length : Int) := by exact_mod_cast h.le
  have hnn : (0 : Int) ≤ (s.length : Int) := by positivity
  simp only [if_neg h0, if_neg h20, min_eq_left hnn, min_eq_left hle]
  norm_num
  rfl

/-! Claim theorems. -/

/-- C3: for every DeploymentResult whose transaction hash is longer than 20
characters, the rendered transaction hash equals the first 20 characters of
the hash followed by an ellipsis. -/
theorem c3_transaction_hash_truncated (r : DeploymentResult)
    (h : 20 < r.transactionHash.length) :
    displayedTransactionHash r = r.transactionHash.take 20 ++ "..." := by
  unfold displayedTransactionHash
  rw [jsSlice_zero_twenty r.transactionHash h]

/-- C3 witness: the sample result's 30-character hash renders as its
20-character prefix followed by the ellipsis. -/
theorem c3_transaction_hash_truncated_witness :
    20 < sampleResult.transactionHash.length ∧
    displayedTransactionHash sampleResult = "0x123456789012345678" ++ "..." := by
  refine ⟨by decide, ?_⟩
  rw [c3_transaction_hash_truncated sampleResult (by decide)]
  simp [String.take_eq]
  rfl

/-- C4: invoking the wallet asset registration when no wallet provider is
injected shows the blocking alert, issues no provider request, and leaves the
local state unchanged — for every request outcome, result and state. -/
theorem c4_no_provider_alert_only (requestSucceeds : Bool)
    (r : DeploymentResult) (s : CompState) :
    addTokenToMetaMask false requestSucceeds r s =
      (s, [Effect.alert "MetaMask is not installed"]) ∧
    requestsOf (addTokenToMetaMask false requestSucceeds r s).2 = [] := by
  constructor <;> simp [addTokenToMetaMask, requestsOf]

/-- C5: when the native share capability is unavailable (whatever a share
attempt would have done), and likewise when the capability is present but the
native share attempt fails, the component copies the result's explorer URL to
the clipboard and sets the 'share' confirmation flag. -/
theorem c5_share_fallback (shareSucceeds : Bool)
    (r : DeploymentResult) (s : CompState) :
    ((shareContract false shareSucceeds r s).1.copied = some "share" ∧
      Effect.clipboardWrite r.explorerUrl ∈ (shareContract false shareSucceeds r s).2) ∧
    ((shareContract true false r s).1.copied = some "share" ∧
      Effect.clipboardWrite r.explorerUrl ∈ (shareContract true false r s).2) := by
  refine ⟨⟨?_, ?_⟩, ⟨?_, ?_⟩⟩ <;> simp [shareContract, copyToClipboard]

/-- C1 counterexample: for the deployment result whose decimals value is
specified as 0, the single `wallet_watchAsset` request carries decimals 18,
not the specified 0 — the JavaScript `result.decimals || 18` treats 0 as
falsy, so a specified decimals value is not always passed through unchanged. -/
theorem c1_zero_decimals_not_passed_through :
    resultZeroDecimals.decimals = some 0 ∧
    requestsOf (addTokenToMetaMask true true resultZeroDecimals initialState).2 =
      [watchAssetRequest resultZeroDecimals] ∧
    (watchAssetRequest resultZeroDecimals).options.decimals = 18 ∧
    (18 : Nat) ≠ 0 := by
  decide

/-- C1 amended: when a provider is present, the registration issues exactly
one provider request, with method `wallet_watchAsset` and type `ERC20`, whose
options carry the result's contract address, the symbol — substituting
"TOKEN" when the result's symbol is unspecified or empty —, and the decimals
— substituting 18 when the result's decimals value is unspecified or zero
(the JavaScript-falsy cases); a specified nonzero decimals value is passed
through unchanged, as is a specified nonempty symbol. -/
theorem c1_watch_asset_request_amended (requestSucceeds : Bool)
    (r : DeploymentResult) (s : CompState) :
    requestsOf (addTokenToMetaMask true requestSucceeds r s).2 =
      [watchAssetRequest r] ∧
    (watchAssetRequest r).method = "wallet_watchAsset" ∧
    (watchAssetRequest r).typ = "ERC20" ∧
    (watchAssetRequest r).options.address = r.contractAddress ∧
    (watchAssetRequest r).options.image = "" ∧
    (r.symbol = none ∨ r.symbol = some "" →
      (watchAssetRequest r).options.symbol = "TOKEN") ∧
    (∀ str, r.symbol = some str → str ≠ "" →
      (watchAssetRequest r).options.symbol = str) ∧
    (r.decimals = none ∨ r.decimals = some 0 →
      (watchAssetRequest r).options.decimals = 18) ∧
    (∀ d, r.decimals = some d → d ≠ 0 →
      (watchAssetRequest r).options.decimals = d) := by
  refine ⟨?_, rfl, rfl, rfl, rfl, ?_, ?_, ?_, ?_⟩
  · cases requestSucceeds <;> simp [addTokenToMetaMask, requestsOf]
  · rintro (h | h) <;> simp [watchAssetRequest, jsOrString, h]
  · intro str h hne
    simp [watchAssetRequest, jsOrString, h, hne]
  · rintro (h | h) <;> simp [watchAssetRequest, jsOrNat, h]
  · intro d h hne
    simp [watchAssetRequest, jsOrNat, h, hne]

/-- C1 witness: for the fully specified sample result (symbol "MTK",
decimals 9) the single request passes both values through unchanged. -/
theorem c1_watch_asset_request_amended_witness :
    requestsOf (addTokenToMetaMask true true sampleResult initialState).2 =
      [watchAssetRequest sampleResult] ∧
    (watchAssetRequest sampleResult).options.symbol = "MTK" ∧
    (watchAssetRequest sampleResult).options.decimals = 9 := by
  obtain ⟨h1, -, -, -, -, -, hsym, -, hdec⟩ :=
    c1_watch_asset_request_amended true sampleResult initialState
  exact ⟨h1, hsym "MTK" rfl (by decide), hdec 9 rfl (by decide)⟩

/-- C2 counterexample: copy 'address' at 0ms and 'tx' at 1000ms.  At 1500ms
the 'tx' flag is active, but at 2500ms — still within 2000ms of the copy that
set it — it has already cleared, because the first copy's timeout fired at
2000ms and its callback resets `copied` to null unconditionally.  So a
confirmation flag does not always clear 2000ms after the copy that set it. -/
theorem c2_overlapping_copies_clear_early :
    copiedAt [(0, "address"), (1000, "tx")] 1500 = some "tx" ∧
    copiedAt [(0, "address"), (1000, "tx")] 2500 = none ∧
    2500 < 1000 + 2000 := by
  decide

/-- C2 amended: copying a field always sets that field's confirmation flag;
a flag set by a copy with no other copy around it is active exactly from the
copy until 2000ms later (so an isolated flag clears exactly 2000ms after the
copy that set it, while a copy made while an earlier copy's timeout is still
pending can be cleared early by that timeout); and at no point are two
fields' confirmation flags active simultaneously. -/
theorem c2_copied_indicator_amended :
    (∀ s c, (applyCopy s c).copied = some c.2) ∧
    (∀ t f q, copiedAt [(t, f)] q =
      if t ≤ q ∧ q < t + 2000 then some f else none) ∧
    (∀ copies q f₁ f₂, copiedAt copies q = some f₁ →
      copiedAt copies q = some f₂ → f₁ = f₂) := by
  refine ⟨fun s c => rfl, ?_, ?_⟩
  · intro t f q
    by_cases h1 : t ≤ q
    · by_cases h2 : q < t + 2000
      · have h3 : ¬ (t + 2000 ≤ q) := by omega
        simp [copiedAt, applyCopy, fireTimersBefore, h1, h2, h3]
      · have h3 : t + 2000 ≤ q := by omega
        simp [copiedAt, applyCopy, fireTimersBefore, h1, h2, h3]
    · simp [copiedAt, h1]
  · intro copies q f₁ f₂ h1 h2
    rw [h1] at h2
    exact Option.some.inj h2

/-- C2 witness: an isolated copy at 5ms is visible at 2004ms and the
uniqueness part applied at a concrete history. -/
theorem c2_copied_indicator_amended_witness :
    copiedAt [(5, "tx")] 2004 = some "tx" ∧ ("tx" : String) = "tx" := by
  constructor
  · have h := c2_copied_indicator_amended.2.1 5 "tx" 2004
    simpa using h
  · exact c2_copied_indicator_amended.2.2 [(0, "tx")] 0 "tx" "tx"
      (by decide) (by decide)

/-- C6: on a mount whose metadata fetch resolves to a record, the panel ends
in the read view showing exactly the fetched record — the edit form is not
shown, and the whole final state is the initial one with only the fetched
metadata stored. -/
theorem c6_fetch_record_read_view (m : TokenMetadata) (r : DeploymentResult)
    (h : r.contractAddress ≠ "") :
    renderMetadataPanel (checkMetadata (.success (some m)) r initialState).1 =
      .readView m ∧
    (checkMetadata (.success (some m)) r initialState).1 =
      { initialState with tokenMetadata := some m } ∧
    (checkMetadata (.success (some m)) r initialState).1.showMetadataForm = false := by
  refine ⟨?_, ?_, ?_⟩ <;>
    simp [checkMetadata, checkMetadataTrace, checkMetadataEffects,
      renderMetadataPanel, initialState, h]

/-- C6 witness: fetching the sample record on the sample result's mount ends
in the read view of that record. -/
theorem c6_fetch_record_read_view_witness :
    renderMetadataPanel
      (checkMetadata (.success (some sampleMetadata)) sampleResult initialState).1 =
      .readView sampleMetadata :=
  (c6_fetch_record_read_view sampleMetadata sampleResult (by decide)).1

/-- C7: on a mount whose metadata fetch resolves to no record, the component's
state comes back to the initial one (no metadata, form hidden, not loading),
which renders the empty-state call-to-action; the edit form appears only once
the user explicitly opens it via `setShowMetadataForm true`. -/
theorem c7_fetch_empty_cta (r : DeploymentResult) (h : r.contractAddress ≠ "") :
    checkMetadata (.success none) r initialState = (initialState, []) ∧
    renderMetadataPanel initialState = .emptyCTA ∧
    renderMetadataPanel (setShowMetadataForm true initialState) = .editForm := by
  refine ⟨?_, rfl, rfl⟩
  simp [checkMetadata, checkMetadataTrace, checkMetadataEffects, initialState, h]

/-- C7 witness: the empty fetch on the sample result's mount leaves the
initial state and the empty-state call-to-action. -/
theorem c7_fetch_empty_cta_witness :
    checkMetadata (.success none) sampleResult initialState = (initialState, []) :=
  (c7_fetch_empty_cta sampleResult (by decide)).1

/-- C8: on a mount whose metadata fetch rejects, the error is logged as the
only effect, the state comes back to the initial one (metadata absent, form
hidden, loading flag cleared), the panel falls back to the empty state, and
`checkMetadata` is total — no error propagates. -/
theorem c8_fetch_failure_degrades (r : DeploymentResult)
    (h : r.contractAddress ≠ "") :
    checkMetadata .failure r initialState =
      (initialState, [Effect.consoleError "Error fetching token metadata:"]) ∧
    renderMetadataPanel initialState = .emptyCTA ∧
    initialState.tokenMetadata = none ∧
    initialState.isLoadingMetadata = false := by
  refine ⟨?_, rfl, rfl, rfl⟩
  simp [checkMetadata, checkMetadataTrace, checkMetadataEffects, initialState, h]

/-- C8 witness: the failed fetch on the sample result's mount logs and leaves
the initial state. -/
theorem c8_fetch_failure_degrades_witness :
    checkMetadata .failure sampleResult initialState =
      (initialState, [Effect.consoleError "Error fetching token metadata:"]) :=
  (c8_fetch_failure_degrades sampleResult (by decide)).1

/-- C9: saving a record while the form is showing stores exactly the saved
record and hides the form, leaving the copied flag and the loading flag
untouched; when the panel is not loading it then renders the read view of
the saved record. -/
theorem c9_save_transitions_to_present (m : TokenMetadata) (s : CompState)
    (h : s.showMetadataForm = true) :
    (handleMetadataSave m s).tokenMetadata = some m ∧
    (handleMetadataSave m s).showMetadataForm = false ∧
    (handleMetadataSave m s).copied = s.copied ∧
    (handleMetadataSave m s).isLoadingMetadata = s.isLoadingMetadata ∧
    (s.isLoadingMetadata = false →
      renderMetadataPanel (handleMetadataSave m s) = .readView m) := by
  refine ⟨rfl, rfl, rfl, rfl, fun hl => ?_⟩
  simp [handleMetadataSave, renderMetadataPanel, hl]

/-- C9 witness: saving the sample record from the editing state stores it,
hides the form and renders the read view. -/
theorem c9_save_transitions_to_present_witness :
    (handleMetadataSave sampleMetadata (setShowMetadataForm true initialState)).tokenMetadata =
      some sampleMetadata ∧
    renderMetadataPanel
      (handleMetadataSave sampleMetadata (setShowMetadataForm true initialState)) =
      .readView sampleMetadata := by
  obtain ⟨h1, -, -, -, h5⟩ :=
    c9_save_transitions_to_present sampleMetadata
      (setShowMetadataForm true initialState) rfl
  exact ⟨h1, h5 rfl⟩

/-- C10: when the contract address is the empty string (JavaScript-falsy),
the mount effect does nothing at all: the state trace is empty so the loading
flag never becomes true, the state is returned unchanged with no effects —
in particular no fetch-related log — and from the initial state the panel
shows the empty-state call-to-action. -/
theorem c10_falsy_address_no_fetch (outcome : FetchOutcome)
    (r : DeploymentResult) (s : CompState) (h : r.contractAddress = "") :
    checkMetadataTrace outcome r s = [] ∧
    checkMetadata outcome r s = (s, []) ∧
    (checkMetadata outcome r initialState).1.isLoadingMetadata = false ∧
    renderMetadataPanel (checkMetadata outcome r initialState).1 = .emptyCTA := by
  refine ⟨?_, ?_, ?_, ?_⟩ <;>
    simp [checkMetadata, checkMetadataTrace, checkMetadataEffects,
      renderMetadataPanel, initialState, h]

/-- C10 witness: with the sample result's address blanked out, the mount
effect is a no-op from any outcome. -/
theorem c10_falsy_address_no_fetch_witness :
    checkMetadata .failure { sampleResult with contractAddress := "" }
      initialState = (initialState, []) :=
  (c10_falsy_address_no_fetch .failure { sampleResult with contractAddress := "" }
    initialState rfl).2.1

end TokenGen2
